import Mathlib

/-!
Verification of the `pyvolgrid` wrapper `volume_from_spheres`
(src/pyvolgrid/__init__.py) against its specification.

The wrapper validates and normalizes its inputs and then dispatches to one of
two opaque native backends (`_volume_from_spheres_float32`,
`_volume_from_spheres_float64`).  We embed the wrapper shallowly:

* numpy arrays become `NpArray` (shape + dtype tag + flattened rational data;
  rationals stand in for the exact values held by either floating-point
  precision family — none of the verified properties depends on rounding of
  nonzero values, and where conversion float64 → float32 does round, the model
  applies an abstract rounding function `rnd32` passed as a parameter);
* the wrapper's outcome becomes a `CallTrace`: either the `ValueError` it
  raises, or a record of exactly which backend it invokes and with which
  arguments, so that dispatch and fail-fast properties are statements about
  the trace;
* allocation and aliasing are made explicit in a store-passing variant
  (`volume_from_spheres_st`) used for the frame / determinism properties;
* the absent native estimator is modelled from the specification
  (`estimator` below) for the properties that constrain its output.
-/

namespace PyVolGrid

/-- The dtype of a numpy array, as far as the wrapper inspects it:
the two floating-point precision families, and anything else. -/
inductive DType where
  | float32 : DType
  | float64 : DType
  | other : DType
deriving DecidableEq, Repr

/-- A numpy array: its shape, its dtype, and its flattened (C-order) data.
Rationals model the exact values stored. -/
structure NpArray where
  shape : List Nat
  dtype : DType
  data : List ℚ
deriving DecidableEq, Repr

/-- `a.ndim` of numpy. -/
def NpArray.ndim (a : NpArray) : Nat := a.shape.length

/-- `a.shape[i]` of numpy (0 when out of range; the wrapper only reads
indices that exist on the branch where it reads them). -/
def NpArray.dim (a : NpArray) (i : Nat) : Nat := a.shape.getD i 0

/-- `np.ascontiguousarray(a, dtype=dt)`, i.e.
`np.array(a, dtype=dt, copy=False, order="C", ndmin=1)`: the result has the
requested dtype, at least one dimension (a 0-d input is promoted to shape
`(1,)`), and the input's values, rounded by `rnd32` exactly when a
non-float32 array is converted to float32. -/
def ascontiguousarray (rnd32 : ℚ → ℚ) (dt : DType) (a : NpArray) : NpArray :=
  { shape := if a.shape = [] then [1] else a.shape
    dtype := dt
    data := if dt = DType.float32 ∧ a.dtype ≠ DType.float32 then
        a.data.map rnd32
      else a.data }

/-- `np.full(n, v, dtype=dt)`: a fresh length-`n` array filled with `v`
(stored rounded when the dtype is float32). -/
def npFull (rnd32 : ℚ → ℚ) (n : Nat) (v : ℚ) (dt : DType) : NpArray :=
  { shape := [n]
    dtype := dt
    data := List.replicate n (if dt = DType.float32 then rnd32 v else v) }

/-- The `radii` argument as the wrapper sees it after `np.isscalar`:
either a true Python/numpy scalar, or something `np.asarray` turns into an
array (a 0-d `np.array(x)` is NOT a scalar and lands in the `array` case). -/
inductive RadiiInput where
  | scalar : ℚ → RadiiInput
  | array : NpArray → RadiiInput
deriving DecidableEq, Repr

/-- Observable outcome of one call of the wrapper: the `ValueError` it
raises, or the backend it invokes together with the exact arguments passed
(coords array, radii array, grid spacing). -/
inductive CallTrace where
  | valueError : String → CallTrace
  | callF32 : NpArray → NpArray → ℚ → CallTrace
  | callF64 : NpArray → NpArray → ℚ → CallTrace
deriving DecidableEq, Repr

def CallTrace.isValueError : CallTrace → Bool
  | .valueError _ => true
  | _ => false

def CallTrace.isCallF32 : CallTrace → Bool
  | .callF32 _ _ _ => true
  | _ => false

def CallTrace.isCallF64 : CallTrace → Bool
  | .callF64 _ _ _ => true
  | _ => false

/-- Whether some backend is invoked. -/
def CallTrace.isCall (t : CallTrace) : Bool := t.isCallF32 || t.isCallF64

/-- Run a trace against (pure) models of the two backends, giving the value
the wrapper returns, or the message of the `ValueError` it raises. -/
def CallTrace.run (f32 f64 : NpArray → NpArray → ℚ → ℚ) :
    CallTrace → Except String ℚ
  | .valueError m => .error m
  | .callF32 a b s => .ok (f32 a b s)
  | .callF64 a b s => .ok (f64 a b s)

/-- The body of `volume_from_spheres`, step for step from the source, also
returning the list of arrays it freshly allocates (the `ascontiguousarray`
and `np.full` results; `np.asarray` on an ndarray aliases and allocates
nothing).  The flag `use_float32` is `coords.dtype == float32` and, when
`radii` is not a scalar, is cleared unless `radii.dtype == float32` — i.e.
float32 ∧ (scalar ∨ float32). -/
def volume_from_spheres_alloc (rnd32 : ℚ → ℚ) (coords : NpArray)
    (radii : RadiiInput) (grid_spacing : ℚ) : CallTrace × List NpArray :=
  -- coords_arr = np.asarray(coords): identity on an ndarray
  let coords_arr := coords
  if ¬ (coords_arr.ndim = 2 ∧ coords_arr.dim 1 = 3) then
    (.valueError "coords must be convertible to shape (N, 3)", [])
  else if coords_arr.dim 0 = 0 then
    (.valueError "coords must contain at least one coordinate", [])
  else
    let use_float32 : Bool :=
      match radii with
      | .scalar _ => coords_arr.dtype == DType.float32
      | .array radii_arr =>
          coords_arr.dtype == DType.float32 && radii_arr.dtype == DType.float32
    if grid_spacing ≤ 0 then
      (.valueError "grid_spacing must be greater than 0.0", [])
    else if use_float32 then
      let coords_array := ascontiguousarray rnd32 DType.float32 coords_arr
      let radii_array :=
        match radii with
        | .scalar v => npFull rnd32 (coords_array.dim 0) v DType.float32
        | .array radii_arr => ascontiguousarray rnd32 DType.float32 radii_arr
      if radii_array.ndim ≠ 1 then
        (.valueError "radii must be convertible to shape (N,)",
          [coords_array, radii_array])
      else if radii_array.dim 0 ≠ coords_array.dim 0 then
        (.valueError "Number of radii must match number of coordinates",
          [coords_array, radii_array])
      else
        (.callF32 coords_array radii_array (rnd32 grid_spacing),
          [coords_array, radii_array])
    else
      let coords_array := ascontiguousarray rnd32 DType.float64 coords_arr
      let radii_array :=
        match radii with
        | .scalar v => npFull rnd32 (coords_array.dim 0) v DType.float64
        | .array radii_arr => ascontiguousarray rnd32 DType.float64 radii_arr
      if radii_array.ndim ≠ 1 then
        (.valueError "radii must be convertible to shape (N,)",
          [coords_array, radii_array])
      else if radii_array.dim 0 ≠ coords_array.dim 0 then
        (.valueError "Number of radii must match number of coordinates",
          [coords_array, radii_array])
      else
        (.callF64 coords_array radii_array grid_spacing,
          [coords_array, radii_array])

/-- `volume_from_spheres` as a trace: which `ValueError` is raised, or which
backend is invoked with which arguments. -/
def volume_from_spheres (rnd32 : ℚ → ℚ) (coords : NpArray)
    (radii : RadiiInput) (grid_spacing : ℚ) : CallTrace :=
  (volume_from_spheres_alloc rnd32 coords radii grid_spacing).1

/-! ### Store-passing variant (allocation and aliasing made explicit) -/

/-- A reference to an array held by the caller. -/
abbrev Ref := Nat

/-- The array heap: every live numpy array, indexed by `Ref`. -/
abbrev Store := List NpArray

/-- Dereference (out-of-range reads give a junk empty array). -/
def Store.read (σ : Store) (r : Ref) : NpArray :=
  σ.getD r ⟨[], DType.float64, []⟩

/-- The `radii` argument at the call site: a scalar, or a reference to a
caller-owned array. -/
inductive RadiiRef where
  | scalar : ℚ → RadiiRef
  | array : Ref → RadiiRef

/-- Look the radii argument up in the store. -/
def RadiiRef.deref (σ : Store) : RadiiRef → RadiiInput
  | .scalar v => .scalar v
  | .array r => .array (Store.read σ r)

/-- The wrapper with the heap explicit: it reads the caller's arrays,
appends its fresh allocations to the store, and never writes an existing
cell (`np.asarray` aliases; `np.ascontiguousarray` and `np.full` produce
fresh arrays; the backend only reads its arguments). -/
def volume_from_spheres_st (rnd32 : ℚ → ℚ) (σ : Store) (coordsRef : Ref)
    (radii : RadiiRef) (grid_spacing : ℚ) : CallTrace × Store :=
  let p := volume_from_spheres_alloc rnd32 (Store.read σ coordsRef)
    (radii.deref σ) grid_spacing
  (p.1, σ ++ p.2)

/-! ### Spec-modelled estimator

The native `_core` backends are absent from the source; the specification
reconstructs them (a grid/voxelization estimator, spec sections 3–4.5).  The
definitions below are modelled from the spec and used only for the
properties that constrain the estimator's output. -/

/-- Modelled from the spec: a sphere, `{center: (x,y,z), radius: r}`. -/
structure Sphere where
  center : ℚ × ℚ × ℚ
  radius : ℚ
deriving DecidableEq, Repr

/-- Modelled from the spec: the SphereSet extracted from the validated
coords `(N,3)` and radii `(N,)` arrays (row `i` of coords with `radii[i]`). -/
def sphereList (coords radii : NpArray) : List Sphere :=
  (List.range (coords.dim 0)).map fun i =>
    { center := (coords.data.getD (3 * i) 0, coords.data.getD (3 * i + 1) 0,
        coords.data.getD (3 * i + 2) 0)
      radius := radii.data.getD i 0 }

/-- Componentwise minimum of two points. -/
def vmin (p q : ℚ × ℚ × ℚ) : ℚ × ℚ × ℚ :=
  (min p.1 q.1, min p.2.1 q.2.1, min p.2.2 q.2.2)

/-- Componentwise maximum of two points. -/
def vmax (p q : ℚ × ℚ × ℚ) : ℚ × ℚ × ℚ :=
  (max p.1 q.1, max p.2.1 q.2.1, max p.2.2 q.2.2)

/-- `center - radius` componentwise. -/
def sphereLo (s : Sphere) : ℚ × ℚ × ℚ :=
  (s.center.1 - s.radius, s.center.2.1 - s.radius, s.center.2.2 - s.radius)

/-- `center + radius` componentwise. -/
def sphereHi (s : Sphere) : ℚ × ℚ × ℚ :=
  (s.center.1 + s.radius, s.center.2.1 + s.radius, s.center.2.2 + s.radius)

/-- Modelled from the spec: BoundingVolumeCalculator, the componentwise
min/max of `center ± radius` over all spheres in one linear pass.  Empty
input is undefined for it (spec section 4.1) and must be intercepted
upstream; the model returns a degenerate box there, which no verified
property relies on. -/
def boundingBox : List Sphere → (ℚ × ℚ × ℚ) × (ℚ × ℚ × ℚ)
  | [] => ((0, 0, 0), (0, 0, 0))
  | s :: rest =>
      rest.foldl (fun bb t => (vmin bb.1 (sphereLo t), vmax bb.2 (sphereHi t)))
        (sphereLo s, sphereHi s)

/-- Modelled from the spec: the grid, `origin = BoundingBox.min`,
`dims[a] = ceil((max[a]-min[a]) / spacing)` with a minimum of 1 per axis. -/
structure Grid where
  origin : ℚ × ℚ × ℚ
  spacing : ℚ
  dims : Nat × Nat × Nat
deriving DecidableEq, Repr

/-- One axis of the grid dimensions. -/
def gridDim (lo hi spacing : ℚ) : Nat :=
  max 1 (Int.toNat ⌈(hi - lo) / spacing⌉)

/-- Build the grid from the bounding box and the spacing. -/
def mkGrid (bb : (ℚ × ℚ × ℚ) × (ℚ × ℚ × ℚ)) (spacing : ℚ) : Grid :=
  { origin := bb.1
    spacing := spacing
    dims := (gridDim bb.1.1 bb.2.1 spacing, gridDim bb.1.2.1 bb.2.2.1 spacing,
      gridDim bb.1.2.2 bb.2.2.2 spacing) }

/-- Clamp an integer voxel coordinate into `[0, d-1]`. -/
def clampIdx (n : ℤ) (d : Nat) : Nat :=
  Int.toNat (min (max n 0) ((d : ℤ) - 1))

/-- Modelled from the spec: `worldToVoxel(p) = floor((p - origin)/spacing)`,
clamped to `[0, dims-1]` per axis. -/
def worldToVoxel (g : Grid) (p : ℚ × ℚ × ℚ) : Nat × Nat × Nat :=
  (clampIdx ⌊(p.1 - g.origin.1) / g.spacing⌋ g.dims.1,
    clampIdx ⌊(p.2.1 - g.origin.2.1) / g.spacing⌋ g.dims.2.1,
    clampIdx ⌊(p.2.2 - g.origin.2.2) / g.spacing⌋ g.dims.2.2)

/-- Modelled from the spec: voxel `(i,j,k)` has center
`origin + (i+0.5, j+0.5, k+0.5) * spacing`. -/
def voxelCenter (g : Grid) (i j k : Nat) : ℚ × ℚ × ℚ :=
  (g.origin.1 + ((i : ℚ) + 1 / 2) * g.spacing,
    g.origin.2.1 + ((j : ℚ) + 1 / 2) * g.spacing,
    g.origin.2.2 + ((k : ℚ) + 1 / 2) * g.spacing)

/-- Squared euclidean distance. -/
def dist2 (p q : ℚ × ℚ × ℚ) : ℚ :=
  (p.1 - q.1) ^ 2 + (p.2.1 - q.2.1) ^ 2 + (p.2.2 - q.2.2) ^ 2

/-- Linearized voxel index `i + j*nx + k*nx*ny`. -/
def linearIndex (g : Grid) (i j k : Nat) : Nat :=
  i + j * g.dims.1 + k * g.dims.1 * g.dims.2.1

/-- Modelled from the spec: SphereRasterizer.  A zero-or-negative radius is
a no-op; otherwise every voxel of the sphere's local index range whose
center satisfies `dist² ≤ radius²` is inserted (linearized). -/
def rasterize (g : Grid) (s : Sphere) : Finset Nat :=
  if s.radius ≤ 0 then ∅
  else
    let lo := worldToVoxel g (sphereLo s)
    let hi := worldToVoxel g (sphereHi s)
    ((Finset.Icc lo.1 hi.1 ×ˢ Finset.Icc lo.2.1 hi.2.1 ×ˢ
        Finset.Icc lo.2.2 hi.2.2).filter fun ijk =>
      dist2 (voxelCenter g ijk.1 ijk.2.1 ijk.2.2) s.center ≤ s.radius ^ 2).image
      fun ijk => linearIndex g ijk.1 ijk.2.1 ijk.2.2

/-- Modelled from the spec: OccupancyAccumulator, the deduplicating union of
every sphere's rasterization. -/
def occupancy (g : Grid) (ss : List Sphere) : Finset Nat :=
  ss.foldl (fun acc s => acc ∪ rasterize g s) ∅

/-- Modelled from the spec: the estimator `_volume_from_spheres_*` —
bounding box, grid, per-sphere rasterization into the occupancy set, then
`|OccupancySet| * spacing³`. -/
def estimator (coords radii : NpArray) (spacing : ℚ) : ℚ :=
  let ss := sphereList coords radii
  let g := mkGrid (boundingBox ss) spacing
  ((occupancy g ss).card : ℚ) * spacing ^ 3

/-! ### Helper predicates used to state the claims -/

/-- The shape `np.ascontiguousarray` gives (0-d promoted to `(1,)`,
everything else unchanged); it does not depend on the dtype argument. -/
def effShape (a : NpArray) : List Nat := if a.shape = [] then [1] else a.shape

/-- The radii argument passes the wrapper's shape validation against `N`
coordinates: a scalar always does, an array iff its converted shape is
`(N,)`. -/
def radiiShapeOk (N : Nat) : RadiiInput → Prop
  | .scalar _ => True
  | .array r => effShape r = [N]

/-- The radii argument is a scalar or a float32 array (the condition under
which, with float32 coords, the float32 path is taken). -/
def radiiScalarOrF32 : RadiiInput → Bool
  | .scalar _ => true
  | .array r => r.dtype == DType.float32

/-- Every radius of the input is zero (scalar `0.0` or an all-zero array). -/
def radiiAllZeroInput : RadiiInput → Prop
  | .scalar v => v = 0
  | .array r => ∀ x ∈ r.data, x = 0

/-- The arguments a trace passes to a backend are uniformly of that
backend's precision family (vacuous for an error). -/
def CallTrace.noMixedPrecision : CallTrace → Prop
  | .valueError _ => True
  | .callF32 a b _ => a.dtype = DType.float32 ∧ b.dtype = DType.float32
  | .callF64 a b _ => a.dtype = DType.float64 ∧ b.dtype = DType.float64

/-! ### Shared structural lemmas -/

theorem ascontiguousarray_shape (rnd32 : ℚ → ℚ) (dt : DType) (a : NpArray) :
    (ascontiguousarray rnd32 dt a).shape = effShape a := rfl

theorem ascontiguousarray_dtype (rnd32 : ℚ → ℚ) (dt : DType) (a : NpArray) :
    (ascontiguousarray rnd32 dt a).dtype = dt := rfl

theorem npFull_shape (rnd32 : ℚ → ℚ) (n : Nat) (v : ℚ) (dt : DType) :
    (npFull rnd32 n v dt).shape = [n] := rfl

theorem CallTrace.isValueError_iff (t : CallTrace) :
    t.isValueError = true ↔ ∃ m, t = .valueError m := by
  cases t <;> simp [CallTrace.isValueError]

/-- With valid coords, an array radii whose converted shape is not `(N,)`
makes the wrapper raise a `ValueError` (the radii one, or the spacing one
first when the spacing is also bad). -/
theorem wrapper_radii_mismatch (rnd32 : ℚ → ℚ) (coords r : NpArray)
    (s : ℚ) (N : Nat) (hshape : coords.shape = [N, 3]) (hN : N ≠ 0)
    (hbad : (effShape r).length ≠ 1 ∨ (effShape r).getD 0 0 ≠ N) :
    (volume_from_spheres rnd32 coords (.array r) s).isValueError = true := by
  rw [CallTrace.isValueError_iff]
  by_cases hs : s ≤ 0
  · exact ⟨"grid_spacing must be greater than 0.0",
      by simp [volume_from_spheres, volume_from_spheres_alloc,
        NpArray.ndim, NpArray.dim, hshape, hN, hs]⟩
  · rcases hbad with hb | hb <;>
      simp [volume_from_spheres, volume_from_spheres_alloc, NpArray.ndim,
        NpArray.dim, hshape, hN, hs, ascontiguousarray, effShape] at hb ⊢ <;>
      split <;> simp_all <;> (try (split <;> simp_all)) <;>
      (try (split <;> simp_all))

/-- With valid coords, positive spacing and radii of matching shape, the
wrapper reaches one of the two backends. -/
theorem wrapper_valid_isCall (rnd32 : ℚ → ℚ) (coords : NpArray)
    (radii : RadiiInput) (s : ℚ) (N : Nat) (hshape : coords.shape = [N, 3])
    (hN : N ≠ 0) (hs : 0 < s) (hrs : radiiShapeOk N radii) :
    (volume_from_spheres rnd32 coords radii s).isCall = true := by
  cases radii with
  | scalar v =>
      simp [volume_from_spheres, volume_from_spheres_alloc, NpArray.ndim,
        NpArray.dim, hshape, hN, not_le.mpr hs, npFull, ascontiguousarray]
      split <;> simp [CallTrace.isCall, CallTrace.isCallF32, CallTrace.isCallF64]
  | array r =>
      have hrs2 : effShape r = [N] := hrs
      simp [volume_from_spheres, volume_from_spheres_alloc, NpArray.ndim,
        NpArray.dim, hshape, hN, not_le.mpr hs, ascontiguousarray,
        effShape] at hrs2 ⊢
      split <;>
        simp_all [CallTrace.isCall, CallTrace.isCallF32, CallTrace.isCallF64,
          effShape]

/-- A trace is not both a float32 call and a float64 call. -/
theorem CallTrace.not_f32_and_f64 (t : CallTrace) (h32 : t.isCallF32 = true)
    (h64 : t.isCallF64 = true) : False := by
  cases t <;> simp [CallTrace.isCallF32, CallTrace.isCallF64] at h32 h64

/-- Every trace of the wrapper passes its backend arguments in one
precision family. -/
theorem wrapper_noMixedPrecision (rnd32 : ℚ → ℚ) (coords : NpArray)
    (radii : RadiiInput) (s : ℚ) :
    (volume_from_spheres rnd32 coords radii s).noMixedPrecision := by
  unfold volume_from_spheres volume_from_spheres_alloc
  cases radii <;> dsimp only <;> (repeat' split) <;>
    simp [CallTrace.noMixedPrecision, ascontiguousarray, npFull]

/-- With valid input, float32 coords and a scalar-or-float32 radii, the
float32 backend is invoked. -/
theorem wrapper_f32_arm (rnd32 : ℚ → ℚ) (coords : NpArray)
    (radii : RadiiInput) (s : ℚ) (N : Nat) (hshape : coords.shape = [N, 3])
    (hN : N ≠ 0) (hs : 0 < s) (hrs : radiiShapeOk N radii)
    (hf : coords.dtype = DType.float32) (hr : radiiScalarOrF32 radii = true) :
    (volume_from_spheres rnd32 coords radii s).isCallF32 = true := by
  cases radii with
  | scalar v =>
      simp [volume_from_spheres, volume_from_spheres_alloc, NpArray.ndim,
        NpArray.dim, hshape, hN, not_le.mpr hs, hf, npFull,
        ascontiguousarray, CallTrace.isCallF32]
  | array r =>
      have hr2 : r.dtype = DType.float32 := by
        simpa [radiiScalarOrF32] using hr
      have hifr : (if r.shape = [] then [1] else r.shape) = [N] := by
        simpa [effShape] using hrs
      simp [volume_from_spheres, volume_from_spheres_alloc, NpArray.ndim,
        NpArray.dim, hshape, hf, hr2, hN, not_le.mpr hs, ascontiguousarray,
        hifr, CallTrace.isCallF32]

/-- With valid input, unless coords are float32 and radii scalar or
float32, the float64 backend is invoked. -/
theorem wrapper_f64_arm (rnd32 : ℚ → ℚ) (coords : NpArray)
    (radii : RadiiInput) (s : ℚ) (N : Nat) (hshape : coords.shape = [N, 3])
    (hN : N ≠ 0) (hs : 0 < s) (hrs : radiiShapeOk N radii)
    (hnf : coords.dtype ≠ DType.float32 ∨ radiiScalarOrF32 radii = false) :
    (volume_from_spheres rnd32 coords radii s).isCallF64 = true := by
  cases radii with
  | scalar v =>
      have hf : coords.dtype ≠ DType.float32 := by
        rcases hnf with h | h
        · exact h
        · simp [radiiScalarOrF32] at h
      simp [volume_from_spheres, volume_from_spheres_alloc, NpArray.ndim,
        NpArray.dim, hshape, hN, not_le.mpr hs, hf, npFull,
        ascontiguousarray, CallTrace.isCallF64]
  | array r =>
      have huf : (coords.dtype == DType.float32 && r.dtype == DType.float32)
          = false := by
        rcases hnf with h | h
        · simp [h]
        · simp [radiiScalarOrF32] at h
          simp [h]
      have hifr : (if r.shape = [] then [1] else r.shape) = [N] := by
        simpa [effShape] using hrs
      simp [volume_from_spheres, volume_from_spheres_alloc, NpArray.ndim,
        NpArray.dim, hshape, hN, not_le.mpr hs, huf, ascontiguousarray,
        hifr, CallTrace.isCallF64]

/-- Reading below the old length is unaffected by appended allocations. -/
theorem Store.read_append_of_lt (σ : Store) (t : List NpArray) (r : Ref)
    (h : r < σ.length) : Store.read (σ ++ t) r = Store.read σ r := by
  unfold Store.read
  rw [List.getD_append _ _ _ _ h]

theorem volume_from_spheres_st_fst (rnd32 : ℚ → ℚ) (σ : Store) (cr : Ref)
    (ri : RadiiRef) (s : ℚ) :
    (volume_from_spheres_st rnd32 σ cr ri s).1 =
      volume_from_spheres rnd32 (Store.read σ cr) (ri.deref σ) s := rfl

theorem volume_from_spheres_st_snd (rnd32 : ℚ → ℚ) (σ : Store) (cr : Ref)
    (ri : RadiiRef) (s : ℚ) :
    (volume_from_spheres_st rnd32 σ cr ri s).2 =
      σ ++ (volume_from_spheres_alloc rnd32 (Store.read σ cr)
        (ri.deref σ) s).2 := rfl

/-- A zero-or-negative radius rasterizes to nothing (spec 4.3). -/
theorem rasterize_nonpos_radius (g : Grid) (t : Sphere) (h : t.radius ≤ 0) :
    rasterize g t = ∅ := by
  simp [rasterize, h]

/-- Accumulating only empty rasterizations leaves the accumulator as is. -/
theorem occupancy_foldl_of_empty (g : Grid) (ss : List Sphere)
    (acc : Finset Nat) (h : ∀ t ∈ ss, rasterize g t = ∅) :
    ss.foldl (fun a t => a ∪ rasterize g t) acc = acc := by
  induction ss generalizing acc with
  | nil => rfl
  | cons hd tl ih =>
      simp only [List.foldl_cons]
      rw [h hd (by simp), Finset.union_empty]
      exact ih _ fun t ht => h t (by simp [ht])

/-- With all-zero radii data, the modelled estimator returns exactly 0. -/
theorem estimator_all_zero (coords radii : NpArray) (s : ℚ)
    (hz : ∀ x ∈ radii.data, x = 0) : estimator coords radii s = 0 := by
  have hz2 : ∀ i, radii.data.getD i 0 = 0 := by
    intro i
    rcases lt_or_ge i radii.data.length with h | h
    · rw [List.getD_eq_getElem _ _ h]
      exact hz _ (radii.data.getElem_mem h)
    · exact List.getD_eq_default _ _ h
  have hras : ∀ g : Grid, ∀ t ∈ sphereList coords radii, rasterize g t = ∅ := by
    intro g t ht
    rcases List.mem_map.mp ht with ⟨i, _, rfl⟩
    exact rasterize_nonpos_radius g _ (le_of_eq (hz2 i))
  have hocc : occupancy (mkGrid (boundingBox (sphereList coords radii)) s)
      (sphereList coords radii) = ∅ :=
    occupancy_foldl_of_empty _ _ _ (hras _)
  simp [estimator, hocc]

/-! ### Claims -/

/-- Claim C1: coords converting to an array of shape `(0, 3)` is rejected
with a `ValueError` at the boundary, for every radii, spacing and rounding
mode — no backend is invoked, so no internal failure on empty data can
surface. -/
theorem C1_zero_rows_rejected (rnd32 : ℚ → ℚ) (coords : NpArray)
    (radii : RadiiInput) (s : ℚ) (h : coords.shape = [0, 3]) :
    volume_from_spheres rnd32 coords radii s =
      CallTrace.valueError "coords must contain at least one coordinate" := by
  simp [volume_from_spheres, volume_from_spheres_alloc, NpArray.ndim,
    NpArray.dim, h]

/-- Witness for claim C1 at a concrete empty input. -/
theorem C1_zero_rows_rejected_witness :
    (NpArray.mk [0, 3] DType.float64 []).shape = [0, 3] ∧
    volume_from_spheres id (NpArray.mk [0, 3] DType.float64 [])
        (.scalar 1) 1 =
      CallTrace.valueError "coords must contain at least one coordinate" :=
  ⟨rfl, C1_zero_rows_rejected id _ _ _ rfl⟩

/-- Claim C5: with coords of valid shape `(N, 3)`, `N ≥ 1`, a spacing
`≤ 0` raises the spacing `ValueError` for every radii — fail-fast, no
backend is invoked, nothing is clamped. -/
theorem C5_nonpositive_spacing_fail_fast (rnd32 : ℚ → ℚ) (coords : NpArray)
    (radii : RadiiInput) (s : ℚ) (N : Nat) (hshape : coords.shape = [N, 3])
    (hN : N ≠ 0) (hs : s ≤ 0) :
    volume_from_spheres rnd32 coords radii s =
      CallTrace.valueError "grid_spacing must be greater than 0.0" := by
  simp [volume_from_spheres, volume_from_spheres_alloc, NpArray.ndim,
    NpArray.dim, hshape, hN, hs]

/-- Witness for claim C5 at a concrete input with spacing `0`. -/
theorem C5_nonpositive_spacing_fail_fast_witness :
    (NpArray.mk [1, 3] DType.float64 [0, 0, 0]).shape = [1, 3] ∧ (1 : Nat) ≠ 0 ∧
    (0 : ℚ) ≤ 0 ∧
    volume_from_spheres id (NpArray.mk [1, 3] DType.float64 [0, 0, 0])
        (.scalar 1) 0 =
      CallTrace.valueError "grid_spacing must be greater than 0.0" :=
  ⟨rfl, by decide, le_refl 0,
    C5_nonpositive_spacing_fail_fast id _ _ _ 1 rfl (by decide) (le_refl 0)⟩

/-- Claim C6: with coords of valid shape `(N, 3)`, a non-scalar radii whose
converted array is not 1-dimensional of length `N` raises a `ValueError`
and no backend is invoked. -/
theorem C6_radii_shape_mismatch_rejected (rnd32 : ℚ → ℚ) (coords r : NpArray)
    (s : ℚ) (N : Nat) (hshape : coords.shape = [N, 3]) (hN : N ≠ 0)
    (hbad : (effShape r).length ≠ 1 ∨ (effShape r).getD 0 0 ≠ N) :
    (volume_from_spheres rnd32 coords (.array r) s).isValueError = true :=
  wrapper_radii_mismatch rnd32 coords r s N hshape hN hbad

/-- Witness for claim C6: a radii array of shape `(2,)` against one
coordinate is rejected. -/
theorem C6_radii_shape_mismatch_rejected_witness :
    (NpArray.mk [1, 3] DType.float64 [0, 0, 0]).shape = [1, 3] ∧ (1 : Nat) ≠ 0 ∧
    ((effShape (NpArray.mk [2] DType.float64 [1, 1])).length ≠ 1 ∨
      (effShape (NpArray.mk [2] DType.float64 [1, 1])).getD 0 0 ≠ 1) ∧
    (volume_from_spheres id (NpArray.mk [1, 3] DType.float64 [0, 0, 0])
      (.array (NpArray.mk [2] DType.float64 [1, 1])) 1).isValueError = true :=
  ⟨rfl, by decide, by right; decide,
    C6_radii_shape_mismatch_rejected id _ _ 1 1 rfl (by decide)
      (by right; decide)⟩

/-- Claim C2 is false on the code: float32 coords with a float64 radii
array (a precision mismatch) are NOT rejected — no `ValueError` is raised
and the float64 backend is invoked. -/
theorem C2_counterexample :
    (volume_from_spheres id (NpArray.mk [1, 3] DType.float32 [0, 0, 0])
      (.array (NpArray.mk [1] DType.float64 [1])) 1).isValueError = false ∧
    (volume_from_spheres id (NpArray.mk [1, 3] DType.float32 [0, 0, 0])
      (.array (NpArray.mk [1] DType.float64 [1])) 1).isCallF64 = true := by
  decide

/-- Claim C2 (amended): a call whose coords and radii precision families
differ is not rejected; both arrays are promoted to float64 and the float64
backend is invoked, so the backend still never sees mixed precision. -/
theorem C2_amended_mixed_precision_promoted (rnd32 : ℚ → ℚ)
    (coords r : NpArray) (s : ℚ) (N : Nat)
    (hshape : coords.shape = [N, 3]) (hN : N ≠ 0) (hs : 0 < s)
    (hrs : effShape r = [N])
    (hmix : (coords.dtype = DType.float32 ∧ r.dtype = DType.float64) ∨
      (coords.dtype = DType.float64 ∧ r.dtype = DType.float32)) :
    volume_from_spheres rnd32 coords (.array r) s =
      CallTrace.callF64 (ascontiguousarray rnd32 DType.float64 coords)
        (ascontiguousarray rnd32 DType.float64 r) s ∧
    (ascontiguousarray rnd32 DType.float64 coords).dtype = DType.float64 ∧
    (ascontiguousarray rnd32 DType.float64 r).dtype = DType.float64 := by
  refine ⟨?_, rfl, rfl⟩
  have huf : (coords.dtype == DType.float32 && r.dtype == DType.float32)
      = false := by
    rcases hmix with ⟨h1, h2⟩ | ⟨h1, h2⟩ <;> simp [h1, h2]
  rcases eq_or_ne r.shape ([] : List Nat) with h0 | h0
  · have h1N : (1 : Nat) = N := by
      have h := hrs
      simp [effShape, h0] at h
      exact h
    subst h1N
    simp [volume_from_spheres, volume_from_spheres_alloc, NpArray.ndim,
      NpArray.dim, hshape, not_le.mpr hs, huf, ascontiguousarray, effShape, h0]
  · have hsh : r.shape = [N] := by simpa [effShape, h0] using hrs
    simp [volume_from_spheres, volume_from_spheres_alloc, NpArray.ndim,
      NpArray.dim, hshape, hN, not_le.mpr hs, huf, ascontiguousarray,
      effShape, hsh, h0]

/-- Witness for the amended claim C2 at a concrete mismatched input. -/
theorem C2_amended_mixed_precision_promoted_witness :
    (NpArray.mk [1, 3] DType.float32 [0, 0, 0]).shape = [1, 3] ∧
    (1 : Nat) ≠ 0 ∧ (0 : ℚ) < 1 ∧
    effShape (NpArray.mk [1] DType.float64 [2]) = [1] ∧
    volume_from_spheres id (NpArray.mk [1, 3] DType.float32 [0, 0, 0])
        (.array (NpArray.mk [1] DType.float64 [2])) 1 =
      CallTrace.callF64
        (ascontiguousarray id DType.float64
          (NpArray.mk [1, 3] DType.float32 [0, 0, 0]))
        (ascontiguousarray id DType.float64 (NpArray.mk [1] DType.float64 [2]))
        1 :=
  ⟨rfl, by decide, by norm_num, by decide,
    (C2_amended_mixed_precision_promoted id
      (NpArray.mk [1, 3] DType.float32 [0, 0, 0])
      (NpArray.mk [1] DType.float64 [2]) 1 1 rfl (by decide)
      (by norm_num) (by decide) (Or.inl ⟨rfl, rfl⟩)).1⟩

/-- Claim C9 is false on the code: a 0-d radii array with a single
coordinate row is accepted (`np.ascontiguousarray` promotes it to shape
`(1,)`, which matches `N = 1`), and a backend is invoked. -/
theorem C9_counterexample :
    (volume_from_spheres id (NpArray.mk [1, 3] DType.float64 [0, 0, 0])
      (.array (NpArray.mk [] DType.float64 [1])) 1).isValueError = false ∧
    (volume_from_spheres id (NpArray.mk [1, 3] DType.float64 [0, 0, 0])
      (.array (NpArray.mk [] DType.float64 [1])) 1).isCall = true := by
  decide

/-- Claim C9 (amended): a 0-d radii array is promoted to shape `(1,)`, so
it raises a `ValueError` exactly when `N ≥ 2` (length mismatch) and is
accepted when `N = 1`; a true scalar is always accepted and broadcast. -/
theorem C9_amended_zero_dim_radii (rnd32 : ℚ → ℚ) (coords r : NpArray)
    (v s : ℚ) (N : Nat) (hshape : coords.shape = [N, 3]) (hr : r.shape = [])
    (hs : 0 < s) :
    (2 ≤ N →
      (volume_from_spheres rnd32 coords (.array r) s).isValueError = true) ∧
    (N = 1 → (volume_from_spheres rnd32 coords (.array r) s).isCall = true) ∧
    (N ≠ 0 → (volume_from_spheres rnd32 coords (.scalar v) s).isCall = true) := by
  refine ⟨fun h2 => ?_, fun h1 => ?_, fun h0 => ?_⟩
  · exact wrapper_radii_mismatch rnd32 coords r s N hshape
      (by omega) (Or.inr (by simp [effShape, hr]; omega))
  · exact wrapper_valid_isCall rnd32 coords (.array r) s N hshape
      (by omega) hs (by simp [radiiShapeOk, effShape, hr, h1])
  · exact wrapper_valid_isCall rnd32 coords (.scalar v) s N hshape h0 hs
      trivial

/-- Witness for the amended claim C9 at `N = 2` with a 0-d radii array. -/
theorem C9_amended_zero_dim_radii_witness :
    (NpArray.mk [2, 3] DType.float64 [0, 0, 0, 1, 1, 1]).shape = [2, 3] ∧
    (NpArray.mk [] DType.float64 [1]).shape = [] ∧ (0 : ℚ) < 1 ∧
    (2 ≤ 2 →
      (volume_from_spheres id (NpArray.mk [2, 3] DType.float64 [0, 0, 0, 1, 1, 1])
        (.array (NpArray.mk [] DType.float64 [1])) 1).isValueError = true) :=
  ⟨rfl, rfl, by norm_num,
    (C9_amended_zero_dim_radii id _ _ 1 1 2 rfl rfl (by norm_num)).1⟩

/-- Claim C3: with valid input, the float32 backend is invoked iff coords
have dtype float32 and radii is a scalar or a float32 array; otherwise some
backend (necessarily the float64 one) is still invoked, and the arguments
passed to the backend never mix the two precision families. -/
theorem C3_dispatch (rnd32 : ℚ → ℚ) (coords : NpArray) (radii : RadiiInput)
    (s : ℚ) (N : Nat) (hshape : coords.shape = [N, 3]) (hN : N ≠ 0)
    (hs : 0 < s) (hrs : radiiShapeOk N radii) :
    ((volume_from_spheres rnd32 coords radii s).isCallF32 = true ↔
      (coords.dtype = DType.float32 ∧ radiiScalarOrF32 radii = true)) ∧
    (volume_from_spheres rnd32 coords radii s).isCall = true ∧
    (volume_from_spheres rnd32 coords radii s).noMixedPrecision := by
  refine ⟨⟨fun h32 => ?_, fun h => wrapper_f32_arm rnd32 coords radii s N
      hshape hN hs hrs h.1 h.2⟩,
    wrapper_valid_isCall rnd32 coords radii s N hshape hN hs hrs,
    wrapper_noMixedPrecision rnd32 coords radii s⟩
  by_contra hc
  rw [not_and_or] at hc
  have hnf : coords.dtype ≠ DType.float32 ∨ radiiScalarOrF32 radii = false := by
    rcases hc with h | h
    · exact Or.inl h
    · exact Or.inr (by simpa using h)
  exact CallTrace.not_f32_and_f64 _ h32
    (wrapper_f64_arm rnd32 coords radii s N hshape hN hs hrs hnf)

/-- Witness for claim C3: float32 coords with a scalar radius reach the
float32 backend. -/
theorem C3_dispatch_witness :
    (volume_from_spheres id (NpArray.mk [1, 3] DType.float32 [0, 0, 0])
      (.scalar 1) 1).isCallF32 = true :=
  (C3_dispatch id (NpArray.mk [1, 3] DType.float32 [0, 0, 0]) (.scalar 1) 1 1
    rfl (by decide) (by norm_num) trivial).1.mpr ⟨rfl, rfl⟩

/-- Claim C4: with float64 coords of `N` rows, a scalar radius `r` produces
the same trace — hence the same returned value under any pure backends — as
the explicitly broadcast length-`N` float64 array filled with `r`. -/
theorem C4_scalar_broadcast_equiv (rnd32 : ℚ → ℚ)
    (f32 f64 : NpArray → NpArray → ℚ → ℚ) (coords : NpArray) (r s : ℚ)
    (N : Nat) (hshape : coords.shape = [N, 3]) (hN : N ≠ 0) (hs : 0 < s)
    (hdt : coords.dtype = DType.float64) :
    volume_from_spheres rnd32 coords (.scalar r) s =
      volume_from_spheres rnd32 coords
        (.array (NpArray.mk [N] DType.float64 (List.replicate N r))) s ∧
    (volume_from_spheres rnd32 coords (.scalar r) s).run f32 f64 =
      (volume_from_spheres rnd32 coords
        (.array (NpArray.mk [N] DType.float64 (List.replicate N r))) s).run
        f32 f64 := by
  have heq : volume_from_spheres rnd32 coords (.scalar r) s =
      volume_from_spheres rnd32 coords
        (.array (NpArray.mk [N] DType.float64 (List.replicate N r))) s := by
    simp [volume_from_spheres, volume_from_spheres_alloc, NpArray.ndim,
      NpArray.dim, hshape, hN, not_le.mpr hs, hdt, npFull, ascontiguousarray]
  exact ⟨heq, by rw [heq]⟩

/-- Witness for claim C4 at one coordinate row with radius 1. -/
theorem C4_scalar_broadcast_equiv_witness :
    volume_from_spheres id (NpArray.mk [1, 3] DType.float64 [0, 0, 0])
        (.scalar 1) 1 =
      volume_from_spheres id (NpArray.mk [1, 3] DType.float64 [0, 0, 0])
        (.array (NpArray.mk [1] DType.float64 (List.replicate 1 1))) 1 :=
  (C4_scalar_broadcast_equiv id (fun _ _ _ => 0) (fun _ _ _ => 0)
    (NpArray.mk [1, 3] DType.float64 [0, 0, 0]) 1 1 1 rfl (by decide)
    (by norm_num) rfl).1

/-- Claim C7: the wrapper reads no mutable module state — calling it twice
in a row on the same caller references yields identical traces, and hence
bit-identical results under any pure backends. -/
theorem C7_deterministic (rnd32 : ℚ → ℚ)
    (f32 f64 : NpArray → NpArray → ℚ → ℚ) (σ : Store) (cr : Ref)
    (ri : RadiiRef) (s : ℚ) (hcr : cr < σ.length)
    (hri : ∀ a, ri = RadiiRef.array a → a < σ.length) :
    (volume_from_spheres_st rnd32 (volume_from_spheres_st rnd32 σ cr ri s).2
        cr ri s).1 = (volume_from_spheres_st rnd32 σ cr ri s).1 ∧
    ((volume_from_spheres_st rnd32 (volume_from_spheres_st rnd32 σ cr ri s).2
        cr ri s).1).run f32 f64 =
      ((volume_from_spheres_st rnd32 σ cr ri s).1).run f32 f64 := by
  have hread : Store.read (volume_from_spheres_st rnd32 σ cr ri s).2 cr =
      Store.read σ cr := by
    rw [volume_from_spheres_st_snd]
    exact Store.read_append_of_lt _ _ _ hcr
  have hderef : RadiiRef.deref (volume_from_spheres_st rnd32 σ cr ri s).2 ri =
      RadiiRef.deref σ ri := by
    cases ri with
    | scalar v => rfl
    | array a =>
        simp only [RadiiRef.deref, volume_from_spheres_st_snd]
        rw [Store.read_append_of_lt _ _ _ (hri a rfl)]
  have h1 : (volume_from_spheres_st rnd32
      (volume_from_spheres_st rnd32 σ cr ri s).2 cr ri s).1 =
      (volume_from_spheres_st rnd32 σ cr ri s).1 := by
    rw [volume_from_spheres_st_fst, volume_from_spheres_st_fst, hread, hderef]
  exact ⟨h1, by rw [h1]⟩

/-- Witness for claim C7 on a one-array store. -/
theorem C7_deterministic_witness :
    (0 : Nat) < ([NpArray.mk [1, 3] DType.float64 [0, 0, 0]] : Store).length ∧
    (volume_from_spheres_st id
        (volume_from_spheres_st id [NpArray.mk [1, 3] DType.float64 [0, 0, 0]]
          0 (.scalar 1) 1).2 0 (.scalar 1) 1).1 =
      (volume_from_spheres_st id [NpArray.mk [1, 3] DType.float64 [0, 0, 0]]
        0 (.scalar 1) 1).1 :=
  ⟨by decide,
    (C7_deterministic id (fun _ _ _ => 0) (fun _ _ _ => 0)
      [NpArray.mk [1, 3] DType.float64 [0, 0, 0]] 0 (.scalar 1) 1 (by decide)
      (fun a h => nomatch h)).1⟩

/-- Claim C8: with valid input and every radius zero (scalar `0.0` or an
all-zero array), the call — run against the spec-modelled estimator —
returns exactly 0, with no floating-point slack; and a radius-0 sphere
rasterizes to nothing, contributing exactly 0 to any occupancy set. -/
theorem C8_zero_radii (rnd32 : ℚ → ℚ) (h0 : rnd32 0 = 0) (coords : NpArray)
    (radii : RadiiInput) (s : ℚ) (N : Nat) (hshape : coords.shape = [N, 3])
    (hN : N ≠ 0) (hs : 0 < s) (hrs : radiiShapeOk N radii)
    (hz : radiiAllZeroInput radii) :
    (volume_from_spheres rnd32 coords radii s).run estimator estimator =
      Except.ok 0 ∧
    (∀ (g : Grid) (c : ℚ × ℚ × ℚ), rasterize g (Sphere.mk c 0) = ∅) := by
  refine ⟨?_, fun g c => rasterize_nonpos_radius g _ le_rfl⟩
  cases radii with
  | scalar v =>
      have hv : v = 0 := hz
      subst hv
      by_cases hdt : coords.dtype = DType.float32
      · simp [CallTrace.run, volume_from_spheres, volume_from_spheres_alloc,
          NpArray.ndim, NpArray.dim, hshape, hN, not_le.mpr hs, hdt,
          ascontiguousarray, npFull]
        apply estimator_all_zero
        simp [List.mem_replicate, h0]
      · have hb : (coords.dtype == DType.float32) = false := by
          simp [hdt]
        simp [CallTrace.run, volume_from_spheres, volume_from_spheres_alloc,
          NpArray.ndim, NpArray.dim, hshape, hN, not_le.mpr hs, hb,
          ascontiguousarray, npFull]
        apply estimator_all_zero
        simp [List.mem_replicate]
  | array r =>
      have hz2 : ∀ x ∈ r.data, x = 0 := hz
      have hifr : (if r.shape = [] then [1] else r.shape) = [N] := by
        simpa [effShape] using hrs
      by_cases hb : (coords.dtype == DType.float32 && r.dtype == DType.float32)
          = true
      · have h2 : coords.dtype = DType.float32 ∧ r.dtype = DType.float32 := by
          simpa using hb
        simp [CallTrace.run, volume_from_spheres, volume_from_spheres_alloc,
          NpArray.ndim, NpArray.dim, hshape, hN, not_le.mpr hs, h2.1, h2.2,
          ascontiguousarray, hifr]
        apply estimator_all_zero
        simpa using hz2
      · rw [Bool.not_eq_true] at hb
        simp [CallTrace.run, volume_from_spheres, volume_from_spheres_alloc,
          NpArray.ndim, NpArray.dim, hshape, hN, not_le.mpr hs, hb,
          ascontiguousarray, hifr]
        apply estimator_all_zero
        simpa using hz2

/-- Witness for claim C8: one sphere of radius 0 yields exactly 0. -/
theorem C8_zero_radii_witness :
    id (0 : ℚ) = 0 ∧
    (volume_from_spheres id (NpArray.mk [1, 3] DType.float64 [0, 0, 0])
      (.scalar 0) 1).run estimator estimator = Except.ok 0 :=
  ⟨rfl, (C8_zero_radii id rfl (NpArray.mk [1, 3] DType.float64 [0, 0, 0])
    (.scalar 0) 1 1 rfl (by decide) (by norm_num) trivial rfl).1⟩

/-- Claim C10: the wrapper never mutates the caller's arrays — after a call
(returning or raising), every array that existed in the store reads back
unchanged; fresh conversions are only appended. -/
theorem C10_no_mutation (rnd32 : ℚ → ℚ) (σ : Store) (cr : Ref)
    (ri : RadiiRef) (s : ℚ) (r : Ref) (hr : r < σ.length) :
    Store.read (volume_from_spheres_st rnd32 σ cr ri s).2 r =
      Store.read σ r := by
  rw [volume_from_spheres_st_snd]
  exact Store.read_append_of_lt _ _ _ hr

/-- Witness for claim C10: the caller's coords array is unchanged by a
call. -/
theorem C10_no_mutation_witness :
    (0 : Nat) < ([NpArray.mk [1, 3] DType.float64 [0, 0, 0]] : Store).length ∧
    Store.read (volume_from_spheres_st id
        [NpArray.mk [1, 3] DType.float64 [0, 0, 0]] 0 (.scalar 1) 1).2 0 =
      Store.read [NpArray.mk [1, 3] DType.float64 [0, 0, 0]] 0 :=
  ⟨by decide,
    C10_no_mutation id [NpArray.mk [1, 3] DType.float64 [0, 0, 0]] 0
      (.scalar 1) 1 0 (by decide)⟩

end PyVolGrid
